import Mathlib

/-!
Shallow embedding of `src/index.ts` (indexed-db-wrapper): a promise-based
`add`/`getAll` wrapper over an event-driven storage API, together with its
in-memory mock backend.  JavaScript promises that settle synchronously are
modelled by `Except`; the mock's shared mutable `items` array is threaded as
explicit state; JS property lookup `item[key]` is modelled by an association
list lookup returning `Option` (with `none` standing for `undefined`).
-/

set_option autoImplicit false

namespace IndexedDB

/-- Values stored in entry fields (strings and numbers suffice for the
to-do entries the program manipulates). -/
inductive Value where
  | str (s : String)
  | num (n : Int)
deriving DecidableEq, Repr

/-- An entry is an arbitrary structured record: a JS object modelled as an
association list from field names to values. -/
abbrev Entry := List (String × Value)

/-- JS property access `item[key]`: first binding of the field, `none` when
the field is absent (JS `undefined`). -/
def getField (e : Entry) (k : String) : Option Value :=
  (e.find? (fun p => p.1 == k)).map (fun p => p.2)

/-- The synthetic error payload the mock passes to an `onerror` handler. -/
structure MockError where
  error : String
deriving DecidableEq, Repr

/-- Builds the payload of `func({ error: ... })` in the mock's proxy `set`
handler: the template literal prefixes the failing operation's label. -/
def mkError (label : String) : MockError :=
  ⟨"We messed up: " ++ label⟩

/-- A request object returned by one mock operation: the proxied target has
a `result` field; the proxy's `set` trap decides, from the operation's
configured toggle, whether an assigned handler fires, and `errorLabel` names
the operation in the synthetic error. -/
structure MockRequest (α : Type) where
  result : α
  succeed : Bool
  errorLabel : String

/-- The mock's proxy `set` trap (`src/index.ts` lines 125-135): assigning a
property named `onsuccess` invokes the assigned function iff the operation is
configured to succeed, and assigning `onerror` invokes it iff the operation is
configured to fail.  Returns whether the assigned handler is invoked. -/
def assignHandlerFires (succeed : Bool) (name : String) : Bool :=
  (name == "onsuccess" && succeed) || (name == "onerror" && !succeed)

/-- A settlement of the promise created by `IndexedDBRequestWrapper`. -/
inductive SettleEvent (α : Type) where
  | resolved (a : α)
  | rejected (e : MockError)
deriving DecidableEq, Repr

/-- The sequence of settle calls made while `IndexedDBRequestWrapper` runs on
a mock request: it assigns `onerror` first (which, via the proxy trap, rejects
with the synthetic error iff the operation fails), then `onsuccess` (which
resolves with the request's `result` iff the operation succeeds).  A promise's
outcome is the first element; further elements would be ignored settles. -/
def wrapperSettleEvents {α : Type} (req : MockRequest α) : List (SettleEvent α) :=
  (if assignHandlerFires req.succeed "onerror"
    then [SettleEvent.rejected (mkError req.errorLabel)] else []) ++
  (if assignHandlerFires req.succeed "onsuccess"
    then [SettleEvent.resolved req.result] else [])

/-- `IndexedDBRequestWrapper` (`src/index.ts` lines 22-54) applied to a mock
request: the promise outcome.  On the mock exactly one handler fires, so the
outcome is `ok result` when the operation's toggle succeeds and the synthetic
error otherwise (the trace-level account is `wrapperSettleEvents`). -/
def IndexedDBRequestWrapper {α : Type} (req : MockRequest α) : Except MockError α :=
  if req.succeed then Except.ok req.result else Except.error (mkError req.errorLabel)

/-- The `MockOptions` interface: each toggle may be left `undefined` (here
`none`); `key` is the primary-key field name. -/
structure MockOptions where
  shouldAdd : Option Bool
  shouldGetAll : Option Bool
  shouldOpen : Option Bool
  key : String

/-- The normalized per-instance configuration of one mock backend (the
destructured locals at the top of `mockImpl`). -/
structure MockConfig where
  shouldAdd : Bool
  shouldGetAll : Bool
  shouldOpen : Bool
  key : String

/-- `defaultMockOptions` from the source: every toggle succeeds, primary key
field `taskTitle`. -/
def defaultMockOptions : MockOptions :=
  ⟨some true, some true, some true, "taskTitle"⟩

/-- `mockImpl`'s option normalization: each toggle defaults to `true` when it
was left `undefined` (`mockOptions.shouldX !== undefined ? ... : true`). -/
def mockImpl (mockOptions : MockOptions) : MockConfig where
  shouldAdd := match mockOptions.shouldAdd with | some b => b | none => true
  shouldGetAll := match mockOptions.shouldGetAll with | some b => b | none => true
  shouldOpen := match mockOptions.shouldOpen with | some b => b | none => true
  key := mockOptions.key

/-- The mock's `open()`: a proxied request whose `result` is the database
handle (which only carries `transaction`, modelled as `Unit` since the mock
transaction and object store hold no data of their own) and whose `set` trap
is configured with the `shouldOpen` toggle and error label `open`. -/
def mockOpen (cfg : MockConfig) : MockRequest Unit :=
  ⟨(), cfg.shouldOpen, "open"⟩

/-- The mock's `add(item)`: pushes the item onto the shared `items` sequence
(state passed explicitly) and returns the proxied request whose `result` is
`item[key]`, with the `shouldAdd` toggle and error label `add`.  The push
happens unconditionally, before success or failure is decided. -/
def mockAdd (cfg : MockConfig) (items : List Entry) (item : Entry) :
    List Entry × MockRequest (Option Value) :=
  (items ++ [item], ⟨getField item cfg.key, cfg.shouldAdd, "add"⟩)

/-- The mock's `getAll()`: a proxied request whose `result` is the shared
`items` sequence at call time, with the `shouldGetAll` toggle and error label
`getAll`. -/
def mockGetAll (cfg : MockConfig) (items : List Entry) : MockRequest (List Entry) :=
  ⟨items, cfg.shouldGetAll, "getAll"⟩

/-- `Promise.all` over a list of already-settled promises (the mock settles
every request synchronously in issue order): resolves with the results in
issue order when all succeed, rejects with the first rejection otherwise. -/
def promiseAll {ε α : Type} : List (Except ε α) → Except ε (List α)
  | [] => Except.ok []
  | Except.ok a :: rest => (promiseAll rest).map (fun l => a :: l)
  | Except.error e :: _ => Except.error e

namespace IndexedDBWrapper

/-- `IndexedDBWrapper.new` (`src/index.ts` lines 56-98), abstracted over the
backend: the wrapped open outcome, then `db.transaction([objectStoreName],
'readwrite')` inside a try/catch whose catch rejects with the thrown error,
then `transaction.objectStore(objectStoreName)` likewise; on success the
promise resolves with the session built over the acquired object store.  Every
failure rejects the returned promise with the originating error unchanged. -/
def new {ε δ τ σ : Type} (openOutcome : Except ε δ)
    (beginTransaction : δ → Except ε τ) (getObjectStore : τ → Except ε σ) :
    Except ε σ :=
  match openOutcome with
  | Except.error e => Except.error e
  | Except.ok db =>
    match beginTransaction db with
    | Except.error e => Except.error e
    | Except.ok t =>
      match getObjectStore t with
      | Except.error e => Except.error e
      | Except.ok s => Except.ok s

end IndexedDBWrapper

/-- `IndexedDBWrapper.new` instantiated with a mock backend: the open request
is wrapped through the adapter; the mock's `transaction` and `objectStore`
are plain function calls that never throw.  `ok ()` stands for the resolved
session object. -/
def mockNew (cfg : MockConfig) : Except MockError Unit :=
  IndexedDBWrapper.new (IndexedDBRequestWrapper (mockOpen cfg))
    (fun db => Except.ok db) (fun t => Except.ok t)

/-- The session's `add(iterable)` before the `Promise.all` join:
`iterable.map(addRequestGenerator)` issues one insert per entry in input
order — each call pushes the entry onto the shared state and wraps the mock
request through the adapter — and yields the per-entry promises in issue
order together with the final state. -/
def sessionAddRequests (cfg : MockConfig) :
    List Entry → List Entry → List Entry × List (Except MockError (Option Value))
  | items, [] => (items, [])
  | items, e :: rest =>
      ((sessionAddRequests cfg (mockAdd cfg items e).1 rest).1,
       IndexedDBRequestWrapper (mockAdd cfg items e).2
         :: (sessionAddRequests cfg (mockAdd cfg items e).1 rest).2)

/-- The session's `add(iterable)` (`src/index.ts` lines 83-90): issues every
insert, then joins them with `Promise.all`.  Returns the final shared state
and the batch promise's outcome. -/
def sessionAdd (cfg : MockConfig) (items entries : List Entry) :
    List Entry × Except MockError (List (Option Value)) :=
  ((sessionAddRequests cfg items entries).1,
   promiseAll (sessionAddRequests cfg items entries).2)

/-- The session's `getAll()` (`src/index.ts` lines 91-93): wraps the mock's
`getAll` request through the adapter. -/
def sessionGetAll (cfg : MockConfig) (items : List Entry) :
    Except MockError (List Entry) :=
  IndexedDBRequestWrapper (mockGetAll cfg items)

/-- One end-to-end run against a fresh mock backend, following the test
harness chain: build the session via `new`, call `add(entries)`, then call
the session's `getAll`.  Returns the add outcome, the getAll outcome, and the
backend's final shared `items` state; when `new` rejects, the session never
exists, so both derived calls reject with the open error and the state stays
empty. -/
def runAddThenGetAll (cfg : MockConfig) (entries : List Entry) :
    Except MockError (List (Option Value)) × Except MockError (List Entry) × List Entry :=
  match mockNew cfg with
  | Except.error e => (Except.error e, Except.error e, [])
  | Except.ok _ =>
      ((sessionAdd cfg [] entries).2,
       sessionGetAll cfg (sessionAdd cfg [] entries).1,
       (sessionAdd cfg [] entries).1)

/-- Request kinds distinguished by the adapter's
`idbRequest instanceof IDBOpenDBRequest` test. -/
inductive RequestKind where
  | openRequest
  | plainRequest
deriving DecidableEq, Repr

/-- The `instanceof IDBOpenDBRequest` test. -/
def isIDBOpenDBRequest : RequestKind → Bool
  | RequestKind.openRequest => true
  | RequestKind.plainRequest => false

/-- A schema-initialization effect performed by an object-store constructor
against the database handle during an upgrade event. -/
inductive SchemaOp where
  | createObjectStore (name keyPath : String)
  | createIndex (indexName keyPath : String) (unique : Bool)
deriving DecidableEq, Repr

/-- `toDoListObjectStoreConstructor` (`src/index.ts` lines 195-207) as its
trace of schema effects. -/
def toDoListObjectStoreConstructor : List SchemaOp :=
  [SchemaOp.createObjectStore "toDoList" "taskTitle",
   SchemaOp.createIndex "hours" "hours" false,
   SchemaOp.createIndex "minutes" "minutes" false,
   SchemaOp.createIndex "day" "day" false,
   SchemaOp.createIndex "month" "month" false,
   SchemaOp.createIndex "year" "year" false,
   SchemaOp.createIndex "notified" "notified" false]

/-- The `onupgradeneeded` handler the adapter attaches, when it attaches one:
only requests passing the `instanceof IDBOpenDBRequest` test get a handler.
The handler, given the request's `result` database handle, synchronously runs
the schema-initialization callback when one was provided and settles nothing
(first component: settle events it produces, always `[]`). -/
def attachedUpgradeHandler {δ : Type} (kind : RequestKind)
    (objectStoreConstructor : Option (δ → List SchemaOp)) :
    Option (δ → List (SettleEvent δ) × List SchemaOp) :=
  if isIDBOpenDBRequest kind then
    some (fun db =>
      ([], match objectStoreConstructor with | some c => c db | none => []))
  else
    none

/-- Events a real request handle can emit. -/
inductive ReqEvent where
  | success
  | errorEvent (e : MockError)
  | upgradeNeeded

/-- What the adapter's handlers do for one emitted event: `onerror` rejects
with the event, `onsuccess` resolves with the request's `result`, and an
upgrade event reaches a handler only if one was attached (otherwise nothing
happens).  Returns the settle events and the schema effects performed. -/
def processEvent {δ : Type} (kind : RequestKind)
    (objectStoreConstructor : Option (δ → List SchemaOp)) (result : δ) :
    ReqEvent → List (SettleEvent δ) × List SchemaOp
  | ReqEvent.errorEvent e => ([SettleEvent.rejected e], [])
  | ReqEvent.success => ([SettleEvent.resolved result], [])
  | ReqEvent.upgradeNeeded =>
      match attachedUpgradeHandler kind objectStoreConstructor with
      | some h => h result
      | none => ([], [])

/-- Processes a request's event sequence in order, concatenating the settle
events and schema effects of each. -/
def processEvents {δ : Type} (kind : RequestKind)
    (objectStoreConstructor : Option (δ → List SchemaOp)) (result : δ) :
    List ReqEvent → List (SettleEvent δ) × List SchemaOp
  | [] => ([], [])
  | ev :: rest =>
      ((processEvent kind objectStoreConstructor result ev).1
         ++ (processEvents kind objectStoreConstructor result rest).1,
       (processEvent kind objectStoreConstructor result ev).2
         ++ (processEvents kind objectStoreConstructor result rest).2)

/-- The kind of the request object the mock's `open()` returns: a plain
`Proxy` over an object literal, which is not an `IDBOpenDBRequest` instance. -/
def mockRequestKind : RequestKind := RequestKind.plainRequest

/-- The schema effects performed while building a session over the mock: the
adapter attaches an upgrade handler only when the open request passes the
`instanceof` test, which the mock's proxy never does. -/
def mockNewSchemaOps {δ : Type} (db : δ) (objectStoreConstructor : δ → List SchemaOp) :
    List SchemaOp :=
  match attachedUpgradeHandler mockRequestKind (some objectStoreConstructor) with
  | some h => (h db).2
  | none => []

/-- The entry of the spec's end-to-end scenario (random suffix fixed to `R`). -/
def walkDogEntry : Entry :=
  [("taskTitle", Value.str "Walk dog #R"), ("hours", Value.num 19),
   ("minutes", Value.num 30), ("day", Value.num 24), ("month", Value.num 11),
   ("year", Value.num 2013), ("notified", Value.str "no")]

/-! Shared lemmas about the session's batched add and the `Promise.all`
join. -/

/-- With the `add` toggle succeeding, issuing the batch appends every entry
to the shared state in order and every per-entry promise resolves with that
entry's primary-key field value. -/
theorem sessionAddRequests_succeed (cfg : MockConfig) (h : cfg.shouldAdd = true) :
    ∀ (entries items : List Entry),
      sessionAddRequests cfg items entries
        = (items ++ entries,
           entries.map (fun e => Except.ok (getField e cfg.key)))
  | [], items => by simp [sessionAddRequests]
  | e :: rest, items => by
      simp [sessionAddRequests, mockAdd, IndexedDBRequestWrapper, h,
            sessionAddRequests_succeed cfg h rest (items ++ [e])]

/-- With the `add` toggle failing, issuing the batch still appends every
entry to the shared state in order, while every per-entry promise rejects
with the synthetic `add` error. -/
theorem sessionAddRequests_fail (cfg : MockConfig) (h : cfg.shouldAdd = false) :
    ∀ (entries items : List Entry),
      sessionAddRequests cfg items entries
        = (items ++ entries,
           entries.map (fun _ => Except.error (mkError "add")))
  | [], items => by simp [sessionAddRequests]
  | e :: rest, items => by
      simp [sessionAddRequests, mockAdd, IndexedDBRequestWrapper, h,
            sessionAddRequests_fail cfg h rest (items ++ [e])]

/-- `Promise.all` over promises that all resolved: resolves with the results
in issue order. -/
theorem promiseAll_map_ok {ε α β : Type} (f : β → α) :
    ∀ l : List β,
      promiseAll (l.map (fun b => (Except.ok (f b) : Except ε α)))
        = Except.ok (l.map f)
  | [] => rfl
  | b :: rest => by simp [promiseAll, promiseAll_map_ok f rest, Except.map]

/-- `Promise.all` rejects with the first rejection. -/
theorem promiseAll_error_head {ε α : Type} (e : ε) (rest : List (Except ε α)) :
    promiseAll (Except.error e :: rest) = Except.error e := rfl

/-- Claim C6: every request wrapped by the adapter settles exactly once —
resolved with the request's result when the success event fires, rejected
with the synthetic error payload when the error event fires — and on the mock
exactly one of the `onsuccess`/`onerror` handlers is invoked per operation,
determined by that operation's configured toggle. -/
theorem adapter_settles_exactly_once {α : Type} (req : MockRequest α) :
    wrapperSettleEvents req
      = [match IndexedDBRequestWrapper req with
         | Except.ok a => SettleEvent.resolved a
         | Except.error e => SettleEvent.rejected e]
    ∧ (wrapperSettleEvents req).length = 1
    ∧ assignHandlerFires req.succeed "onsuccess" = req.succeed
    ∧ assignHandlerFires req.succeed "onerror" = !req.succeed
    ∧ assignHandlerFires req.succeed "onsuccess"
        ≠ assignHandlerFires req.succeed "onerror" := by
  obtain ⟨res, succ, lbl⟩ := req
  cases succ <;>
    exact ⟨rfl, rfl, rfl, rfl, by simp [assignHandlerFires]⟩

/-- Claim C7: when the upgrade-needed event fires on a container-open
request, the adapter synchronously runs the provided schema-initialization
callback on the request's result database handle and settles nothing (the
success path that follows performs the only settle); on a request that is not
a container-open request the upgrade handler is never attached, so the event
does nothing. -/
theorem upgrade_event_runs_schema_init {δ : Type}
    (ctor : δ → List SchemaOp) (result : δ) :
    processEvents RequestKind.openRequest (some ctor) result [ReqEvent.upgradeNeeded]
      = ([], ctor result)
    ∧ processEvents RequestKind.openRequest (some ctor) result
        [ReqEvent.upgradeNeeded, ReqEvent.success]
      = ([SettleEvent.resolved result], ctor result)
    ∧ (∀ c : Option (δ → List SchemaOp),
        attachedUpgradeHandler RequestKind.plainRequest c = none)
    ∧ processEvents RequestKind.plainRequest (some ctor) result [ReqEvent.upgradeNeeded]
      = ([], []) := by
  refine ⟨?_, ?_, fun c => rfl, ?_⟩ <;>
    simp [processEvents, processEvent, attachedUpgradeHandler, isIDBOpenDBRequest]

/-- Claim C8: in the session builder, a throw while beginning the read-write
transaction or while acquiring the object store after a successful open
rejects the returned promise with the originating error unchanged. -/
theorem new_propagates_acquisition_errors {ε δ τ σ : Type} (db : δ)
    (beginTransaction : δ → Except ε τ) (getObjectStore : τ → Except ε σ)
    (e : ε) :
    (beginTransaction db = Except.error e →
      IndexedDBWrapper.new (Except.ok db) beginTransaction getObjectStore
        = Except.error e)
    ∧ (∀ t : τ, beginTransaction db = Except.ok t →
        getObjectStore t = Except.error e →
        IndexedDBWrapper.new (Except.ok db) beginTransaction getObjectStore
          = Except.error e) := by
  constructor
  · intro h
    simp [IndexedDBWrapper.new, h]
  · intro t h1 h2
    simp [IndexedDBWrapper.new, h1, h2]

/-- Witness for C8 at a concrete failing transaction step. -/
theorem new_propagates_acquisition_errors_witness :
    ((fun _ : Unit => (Except.error "boom" : Except String Unit)) ()
        = Except.error "boom")
    ∧ IndexedDBWrapper.new (Except.ok ())
        (fun _ : Unit => (Except.error "boom" : Except String Unit))
        (fun _ : Unit => (Except.ok () : Except String Unit))
      = Except.error "boom" :=
  ⟨rfl, (new_propagates_acquisition_errors ()
      (fun _ : Unit => (Except.error "boom" : Except String Unit))
      (fun _ : Unit => (Except.ok () : Except String Unit)) "boom").1 rfl⟩

/-- Claim C10: over the mock backend the schema-initialization callback is
never invoked: the mock's open request is a plain proxy that fails the
`instanceof IDBOpenDBRequest` test, so the adapter never attaches the
upgrade handler; and the mock's proxy trap never invokes a handler assigned
under the name `onupgradeneeded` either. -/
theorem mock_never_runs_schema_init :
    isIDBOpenDBRequest mockRequestKind = false
    ∧ (∀ (δ : Type) (c : Option (δ → List SchemaOp)),
        attachedUpgradeHandler mockRequestKind c = none)
    ∧ (∀ b : Bool, assignHandlerFires b "onupgradeneeded" = false)
    ∧ mockNewSchemaOps () (fun _ => toDoListObjectStoreConstructor) = [] :=
  ⟨rfl, fun _ _ => rfl, fun _ => rfl, rfl⟩

/-- Claim C1: with every toggle succeeding, adding a sequence of entries with
pairwise-distinct primary-key values and then calling the session's `getAll`
yields exactly that sequence, in order (the add itself resolves with the
primary-key values and the final shared state is that sequence). -/
theorem add_then_getAll_roundtrip (cfg : MockConfig) (entries : List Entry)
    (_hkeys : (entries.map (fun e => getField e cfg.key)).Nodup)
    (hO : cfg.shouldOpen = true) (hA : cfg.shouldAdd = true)
    (hG : cfg.shouldGetAll = true) :
    runAddThenGetAll cfg entries
      = (Except.ok (entries.map (fun e => getField e cfg.key)),
         Except.ok entries, entries) := by
  have hadd := sessionAddRequests_succeed cfg hA entries []
  simp [runAddThenGetAll, mockNew, IndexedDBWrapper.new, IndexedDBRequestWrapper,
        mockOpen, hO, sessionAdd, hadd, sessionGetAll, mockGetAll, hG,
        promiseAll_map_ok]

/-- Witness for C1 at the spec's one-entry scenario. -/
theorem add_then_getAll_roundtrip_witness :
    (([walkDogEntry].map
        (fun e => getField e (mockImpl defaultMockOptions).key)).Nodup
      ∧ (mockImpl defaultMockOptions).shouldOpen = true
      ∧ (mockImpl defaultMockOptions).shouldAdd = true
      ∧ (mockImpl defaultMockOptions).shouldGetAll = true)
    ∧ runAddThenGetAll (mockImpl defaultMockOptions) [walkDogEntry]
      = (Except.ok [some (Value.str "Walk dog #R")],
         Except.ok [walkDogEntry], [walkDogEntry]) :=
  ⟨⟨by decide, rfl, rfl, rfl⟩,
   (add_then_getAll_roundtrip (mockImpl defaultMockOptions) [walkDogEntry]
      (by decide) rfl rfl rfl).trans rfl⟩

/-- Claim C2: with every toggle succeeding, the session's `add` of a
non-empty batch has every per-entry insert settle successfully and resolves
with the sequence of each entry's primary-key field value, in input order. -/
theorem add_batch_resolves_with_keys (cfg : MockConfig) (entries : List Entry)
    (_hne : entries ≠ []) (hA : cfg.shouldAdd = true) :
    (∀ r ∈ (sessionAddRequests cfg [] entries).2, ∃ v, r = Except.ok v)
    ∧ (sessionAdd cfg [] entries).2
      = Except.ok (entries.map (fun e => getField e cfg.key)) := by
  have h := sessionAddRequests_succeed cfg hA entries []
  constructor
  · intro r hr
    rw [h] at hr
    simp only [List.mem_map] at hr
    obtain ⟨e, _, rfl⟩ := hr
    exact ⟨_, rfl⟩
  · simp [sessionAdd, h, promiseAll_map_ok]

/-- Witness for C2 at the spec's one-entry scenario: the add result is the
primary-key value of the single entry. -/
theorem add_batch_resolves_with_keys_witness :
    ([walkDogEntry] ≠ [] ∧ (mockImpl defaultMockOptions).shouldAdd = true)
    ∧ (sessionAdd (mockImpl defaultMockOptions) [] [walkDogEntry]).2
      = Except.ok [some (Value.str "Walk dog #R")] :=
  ⟨⟨by simp, rfl⟩,
   ((add_batch_resolves_with_keys (mockImpl defaultMockOptions) [walkDogEntry]
      (by simp) rfl).2).trans rfl⟩

/-- Claim C3: with the `open` toggle failing, the session builder rejects
with the synthetic `open` error, both derived `add` and `getAll` calls
reject, and no entry is persisted through the session. -/
theorem broken_open_rejects_all (cfg : MockConfig) (entries : List Entry)
    (hO : cfg.shouldOpen = false) :
    mockNew cfg = Except.error (mkError "open")
    ∧ runAddThenGetAll cfg entries
      = (Except.error (mkError "open"), Except.error (mkError "open"), []) := by
  have h1 : mockNew cfg = Except.error (mkError "open") := by
    simp [mockNew, IndexedDBWrapper.new, IndexedDBRequestWrapper, mockOpen, hO]
  exact ⟨h1, by simp [runAddThenGetAll, h1]⟩

/-- Witness for C3 at the source's `withBrokenOpen` configuration. -/
theorem broken_open_rejects_all_witness :
    (mockImpl ⟨none, none, some false, "taskTitle"⟩).shouldOpen = false
    ∧ runAddThenGetAll (mockImpl ⟨none, none, some false, "taskTitle"⟩)
        [walkDogEntry]
      = (Except.error (mkError "open"), Except.error (mkError "open"), []) :=
  ⟨rfl, (broken_open_rejects_all (mockImpl ⟨none, none, some false, "taskTitle"⟩)
      [walkDogEntry] rfl).2⟩

/-- Claim C4: with `open` succeeding and `add` failing, the session's `add`
of a non-empty batch rejects with the synthetic `add` error, yet every entry
of the batch is still appended to the mock's shared sequence and every
per-entry insert request is issued. -/
theorem broken_add_rejects_but_mutates (cfg : MockConfig) (entries : List Entry)
    (hne : entries ≠ []) (hO : cfg.shouldOpen = true)
    (hA : cfg.shouldAdd = false) :
    mockNew cfg = Except.ok ()
    ∧ sessionAdd cfg [] entries = (entries, Except.error (mkError "add"))
    ∧ (sessionAddRequests cfg [] entries).2.length = entries.length := by
  have h := sessionAddRequests_fail cfg hA entries []
  refine ⟨?_, ?_, ?_⟩
  · simp [mockNew, IndexedDBWrapper.new, IndexedDBRequestWrapper, mockOpen, hO]
  · obtain ⟨b, L, rfl⟩ := List.exists_cons_of_ne_nil hne
    simp [sessionAdd, h, promiseAll]
  · rw [h]
    simp

/-- Witness for C4 at the source's `withBrokenAdd` configuration. -/
theorem broken_add_rejects_but_mutates_witness :
    ([walkDogEntry] ≠ []
      ∧ (mockImpl ⟨some false, none, none, "taskTitle"⟩).shouldOpen = true
      ∧ (mockImpl ⟨some false, none, none, "taskTitle"⟩).shouldAdd = false)
    ∧ sessionAdd (mockImpl ⟨some false, none, none, "taskTitle"⟩) []
        [walkDogEntry]
      = ([walkDogEntry], Except.error (mkError "add")) :=
  ⟨⟨by simp, rfl, rfl⟩,
   (broken_add_rejects_but_mutates (mockImpl ⟨some false, none, none, "taskTitle"⟩)
      [walkDogEntry] (by simp) rfl rfl).2.1⟩

/-- Claim C5: with `getAll` failing but `open` and `add` succeeding, a prior
`add` still resolves with the primary-key values of the added entries and
the subsequent `getAll` rejects with the synthetic `getAll` error. -/
theorem broken_getAll_after_successful_add (cfg : MockConfig)
    (entries : List Entry) (hO : cfg.shouldOpen = true)
    (hA : cfg.shouldAdd = true) (hG : cfg.shouldGetAll = false) :
    runAddThenGetAll cfg entries
      = (Except.ok (entries.map (fun e => getField e cfg.key)),
         Except.error (mkError "getAll"), entries) := by
  have hadd := sessionAddRequests_succeed cfg hA entries []
  simp [runAddThenGetAll, mockNew, IndexedDBWrapper.new, IndexedDBRequestWrapper,
        mockOpen, hO, sessionAdd, hadd, sessionGetAll, mockGetAll, hG,
        promiseAll_map_ok]

/-- Witness for C5 at the source's `withBrokenGetAll` configuration. -/
theorem broken_getAll_after_successful_add_witness :
    ((mockImpl ⟨none, some false, none, "taskTitle"⟩).shouldOpen = true
      ∧ (mockImpl ⟨none, some false, none, "taskTitle"⟩).shouldAdd = true
      ∧ (mockImpl ⟨none, some false, none, "taskTitle"⟩).shouldGetAll = false)
    ∧ runAddThenGetAll (mockImpl ⟨none, some false, none, "taskTitle"⟩)
        [walkDogEntry]
      = (Except.ok [some (Value.str "Walk dog #R")],
         Except.error (mkError "getAll"), [walkDogEntry]) :=
  ⟨⟨rfl, rfl, rfl⟩,
   (broken_getAll_after_successful_add
      (mockImpl ⟨none, some false, none, "taskTitle"⟩) [walkDogEntry]
      rfl rfl rfl).trans rfl⟩

/-- Claim C9: on a freshly constructed mock backend with every toggle
succeeding, the session builds and calling the session's `getAll` before any
`add` resolves with the empty sequence. -/
theorem fresh_getAll_empty (cfg : MockConfig) (hO : cfg.shouldOpen = true)
    (hG : cfg.shouldGetAll = true) :
    mockNew cfg = Except.ok () ∧ sessionGetAll cfg [] = Except.ok [] := by
  constructor
  · simp [mockNew, IndexedDBWrapper.new, IndexedDBRequestWrapper, mockOpen, hO]
  · simp [sessionGetAll, mockGetAll, IndexedDBRequestWrapper, hG]

/-- Witness for C9 at the source's default mock configuration. -/
theorem fresh_getAll_empty_witness :
    ((mockImpl defaultMockOptions).shouldOpen = true
      ∧ (mockImpl defaultMockOptions).shouldGetAll = true)
    ∧ mockNew (mockImpl defaultMockOptions) = Except.ok ()
    ∧ sessionGetAll (mockImpl defaultMockOptions) [] = Except.ok [] :=
  ⟨⟨rfl, rfl⟩, fresh_getAll_empty (mockImpl defaultMockOptions) rfl rfl⟩

end IndexedDB
